import Mathlib

/-!
Shallow embedding of the document-finder backend (src/api/index.js).

The program is a single Express POST route `/api` dispatching on an
`action` field to two operations:

* `saveDocument` — calls an OpenAI chat completion to derive tags from
  the document content (truncated to 2000 characters), then appends a
  row `[new Date(), url, title, tags]` to a Google Sheet;
* `searchDocuments` — fetches all sheet rows, skips the header row, and
  returns up to 50 rows whose title (column 2) or tags (column 3)
  contains the query case-insensitively.

The two external collaborators are modelled as oracles carried in a
`World` value: an extraction oracle mapping the outbound prompt to
either a completion string or an error message, an append outcome, and
a read outcome holding the sheet contents (`response.data.values`,
possibly absent).  Outbound calls are recorded as an `Event` trace.
-/

namespace DocFinder

/-- JS `sub.isPrefixOf hay` on character lists: model of the prefix test
underlying `String.prototype.includes`. -/
def strStarts : List Char → List Char → Bool
  | [], _ => true
  | _ :: _, [] => false
  | a :: as, b :: bs => a == b && strStarts as bs

/-- Model of JS `hay.includes(sub)`: `sub` occurs contiguously in `hay`. -/
def strHasSub : List Char → List Char → Bool
  | [], sub => sub.isEmpty
  | h :: t, sub => strStarts sub (h :: t) || strHasSub t sub

/-- Model of JS `s.includes(sub)` on strings. -/
def jsIncludes (s sub : String) : Bool :=
  strHasSub s.data sub.data

/-- Model of JS `s.toLowerCase()` (ASCII-faithful). -/
def jsLower (s : String) : String :=
  ⟨s.data.map Char.toLower⟩

/-- Model of JS `s.trim()`: strip leading and trailing whitespace. -/
def jsTrim (s : String) : String :=
  ⟨((s.data.dropWhile Char.isWhitespace).reverse.dropWhile Char.isWhitespace).reverse⟩

/-- Model of JS `s.substring(0, n)`. -/
def jsSubstring (s : String) (n : Nat) : String :=
  ⟨s.data.take n⟩

/-- Model of the JS ternary `cell ? cell.toLowerCase() : ''` applied to a
possibly-missing sheet cell (`data[i][k]` is `undefined` past the end of a
ragged row, and the empty string is falsy). -/
def lowerCell : Option String → String
  | some s => if s = "" then "" else jsLower s
  | none => ""

/-- A record returned by `searchDocuments`:
`{ url: data[i][1], title: data[i][2], tags: data[i][3] }`; a field is
`none` when the row is too short (the JS value would be `undefined`). -/
structure SearchRecord where
  url : Option String
  title : Option String
  tags : Option String
deriving DecidableEq, Repr

/-- Projection of one sheet row to the returned record. -/
def toRecord (row : List String) : SearchRecord :=
  ⟨row[1]?, row[2]?, row[3]?⟩

/-- Predicate of the `if` in the search loop: the row matches when its
title cell or its tags cell (lower-cased, missing read as empty) contains
the lower-cased query. -/
def rowMatches (lowerQ : String) (row : List String) : Bool :=
  jsIncludes (lowerCell row[2]?) lowerQ || jsIncludes (lowerCell row[3]?) lowerQ

/-- The body of the `for (let i = 1; ...)` loop of `searchDocuments`,
run over the rows after the header: push the record of each matching row,
in store order. -/
def searchLoop (lowerQ : String) : List (List String) → List SearchRecord
  | [] => []
  | row :: rest =>
    if rowMatches lowerQ row then toRecord row :: searchLoop lowerQ rest
    else searchLoop lowerQ rest

/-- Success / failure outcome of the raw OpenAI chat-completion call. -/
inductive ExtractResult where
  | ok (completionContent : String)
  | err (message : String)
deriving DecidableEq, Repr

/-- One outbound call to an external collaborator. -/
inductive Event where
  | extract (prompt : String)
  | append (row : List String)
  | read
deriving DecidableEq, Repr

/-- The environment of one request: the two external collaborators as
oracles, plus the server clock (`new Date()` rendered as a cell value). -/
structure World where
  extract : String → ExtractResult
  appendResult : Except String Unit
  readResult : Except String (Option (List (List String)))
  now : String

/-- JSON result bodies produced by the dispatcher:
an error object (also the shape `getTagsFromOpenAI` returns on failure),
the `saveDocument` success body, and the `searchDocuments` success body. -/
inductive ApiResult where
  | errorBody (message : String)
  | saveSuccess (message tags : String)
  | searchSuccess (results : List SearchRecord)
deriving DecidableEq, Repr

/-- The `status` field of a result body. -/
def ApiResult.status : ApiResult → String
  | errorBody _ => "error"
  | saveSuccess _ _ => "success"
  | searchSuccess _ => "success"

/-- The `results` field of a search success body, if any. -/
def ApiResult.searchResults : ApiResult → Option (List SearchRecord)
  | searchSuccess rs => some rs
  | _ => none

/-- Return value of `getTagsFromOpenAI`: a plain tag string on success,
or the error-shaped object (see the source, lines 125-127). -/
inductive TagsOutcome where
  | tags (s : String)
  | error (message : String)
deriving DecidableEq, Repr

/-- The literal prefix of the prompt template at line 123 of the source. -/
def promptIntro : String :=
  "Generate 5-10 comma-separated keywords for: \""

/-- The outbound prompt: the template embeds `textContent.substring(0, 2000)`
between the intro text and a closing double quote. -/
def openaiPrompt (textContent : String) : String :=
  promptIntro ++ jsSubstring textContent 2000 ++ "\""

/-- `getTagsFromOpenAI`: builds the prompt, calls the completion service,
returns the trimmed completion on success and an error object carrying
`OpenAI Error: ` plus the underlying message on failure.  The outbound
call is recorded as an `Event.extract`. -/
def getTagsFromOpenAI (oracle : String → ExtractResult) (textContent : String) :
    TagsOutcome × List Event :=
  match oracle (openaiPrompt textContent) with
  | ExtractResult.ok c => (TagsOutcome.tags (jsTrim c), [Event.extract (openaiPrompt textContent)])
  | ExtractResult.err m =>
    (TagsOutcome.error ("OpenAI Error: " ++ m), [Event.extract (openaiPrompt textContent)])

/-- `saveDocument(data)`: extract tags; if the outcome is error-shaped,
return it unchanged (no append); otherwise append
`[new Date(), url, title, tags]` and return the success body.  A storage
failure is a thrown exception (`Except.error`), caught by the dispatcher. -/
def saveDocument (w : World) (url title content : String) :
    Except String ApiResult × List Event :=
  match getTagsFromOpenAI w.extract content with
  | (TagsOutcome.error m, evs) => (Except.ok (ApiResult.errorBody m), evs)
  | (TagsOutcome.tags tg, evs) =>
    match w.appendResult with
    | Except.error e => (Except.error e, evs ++ [Event.append [w.now, url, title, tg]])
    | Except.ok _ =>
      (Except.ok (ApiResult.saveSuccess "Document saved!" tg),
        evs ++ [Event.append [w.now, url, title, tg]])

/-- `searchDocuments(query)`: fetch all rows (`response.data.values || []`),
lower-case the query, scan rows 1.. and return the first 50 matches.
A read failure is a thrown exception caught by the dispatcher. -/
def searchDocuments (w : World) (query : String) :
    Except String ApiResult × List Event :=
  match w.readResult with
  | Except.error e => (Except.error e, [Event.read])
  | Except.ok vals =>
    let data := vals.getD []
    (Except.ok (ApiResult.searchSuccess ((searchLoop (jsLower query) (data.drop 1)).take 50)),
      [Event.read])

/-- HTTP method of the incoming request, as far as the handler inspects it. -/
inductive HttpMethod where
  | post
  | options
deriving DecidableEq, Repr

/-- The request payload `data`, in the two shapes the operations read
(`{url, title, content}` for save, `{query}` for search). -/
inductive ReqData where
  | save (url title content : String)
  | search (query : String)
deriving DecidableEq, Repr

/-- An incoming request to the `/api` route: method, the `action`
discriminator (`none` when absent from the body), and the payload. -/
structure Request where
  method : HttpMethod
  action : Option String
  data : ReqData
deriving DecidableEq, Repr

/-- The HTTP response: status code, whether the permissive CORS headers
were set, and the JSON body (`none` for the empty body of `.end()`). -/
structure Response where
  httpStatus : Nat
  cors : Bool
  body : Option ApiResult
deriving DecidableEq, Repr

/-- Approximation of the TypeError thrown when `action === 'saveDocument'`
but the payload has no `url`/`title`/`content` fields: `content` is
`undefined`, so `textContent.substring(0, 2000)` throws inside the
`try` of `getTagsFromOpenAI`, which catches it. -/
def undefinedContentMessage : String :=
  "OpenAI Error: Cannot read properties of undefined"

/-- Approximation of the TypeError thrown when `action === 'searchDocuments'`
but the payload has no `query` field: `query.toLowerCase()` throws after
the sheet read, and the top-level catch reports it. -/
def undefinedQueryMessage : String :=
  "Cannot read properties of undefined"

/-- The `app.post('/api', ...)` handler: set CORS headers; answer OPTIONS
pre-flight with an empty 200; otherwise dispatch on `action`, wrapping
the operations in the top-level try/catch (thrown errors become
`500 { status: error, message }`; unrecognized actions become
`400 { status: error, message: Invalid action }`). -/
def handleApi (w : World) (r : Request) : Response × List Event :=
  if r.method = HttpMethod.options then
    (⟨200, true, none⟩, [])
  else if r.action = some "saveDocument" then
    match r.data with
    | ReqData.save u t c =>
      match saveDocument w u t c with
      | (Except.ok body, evs) => (⟨200, true, some body⟩, evs)
      | (Except.error m, evs) => (⟨500, true, some (ApiResult.errorBody m)⟩, evs)
    | ReqData.search _ =>
      (⟨200, true, some (ApiResult.errorBody undefinedContentMessage)⟩, [])
  else if r.action = some "searchDocuments" then
    match r.data with
    | ReqData.search q =>
      match searchDocuments w q with
      | (Except.ok body, evs) => (⟨200, true, some body⟩, evs)
      | (Except.error m, evs) => (⟨500, true, some (ApiResult.errorBody m)⟩, evs)
    | ReqData.save _ _ _ =>
      match w.readResult with
      | Except.error e => (⟨500, true, some (ApiResult.errorBody e)⟩, [Event.read])
      | Except.ok _ =>
        (⟨500, true, some (ApiResult.errorBody undefinedQueryMessage)⟩, [Event.read])
  else
    (⟨400, true, some (ApiResult.errorBody "Invalid action")⟩, [])

/-! ### Helper lemmas -/

/-- The empty pattern occurs in every haystack, as JS `hay.includes('')`. -/
theorem strHasSub_nil (hay : List Char) : strHasSub hay [] = true := by
  cases hay with
  | nil => rfl
  | cons h t => rfl

/-- JS `s.includes('')` is `true` for every `s`. -/
theorem jsIncludes_empty (s : String) : jsIncludes s "" = true :=
  strHasSub_nil s.data

/-- With an empty (lower-cased) query, every row matches. -/
theorem rowMatches_empty (row : List String) : rowMatches "" row = true := by
  have h : ("" : String).data = [] := rfl
  simp [rowMatches, jsIncludes, h, strHasSub_nil]

/-- The search loop is a filter of the rows followed by the projection to
records. -/
theorem searchLoop_eq_filter_map (lq : String) (rows : List (List String)) :
    searchLoop lq rows = (rows.filter (rowMatches lq)).map toRecord := by
  induction rows with
  | nil => rfl
  | cons row rest ih =>
    by_cases h : rowMatches lq row
    · simp [searchLoop, List.filter_cons, h, ih]
    · simp [searchLoop, List.filter_cons, h, ih]

/-- Each record produced by the search loop comes from a matching row. -/
theorem mem_searchLoop (lq : String) (rows : List (List String)) (rec : SearchRecord)
    (h : rec ∈ searchLoop lq rows) :
    ∃ row ∈ rows, rec = toRecord row ∧ rowMatches lq row = true := by
  induction rows with
  | nil => simp [searchLoop] at h
  | cons row rest ih =>
    by_cases hm : rowMatches lq row
    · rw [searchLoop, if_pos hm] at h
      rcases List.mem_cons.mp h with h1 | h2
      · exact ⟨row, List.mem_cons_self _ _, h1, hm⟩
      · obtain ⟨row2, hr2, he2, hm2⟩ := ih h2
        exact ⟨row2, List.mem_cons_of_mem _ hr2, he2, hm2⟩
    · rw [searchLoop, if_neg hm] at h
      obtain ⟨row2, hr2, he2, hm2⟩ := ih h
      exact ⟨row2, List.mem_cons_of_mem _ hr2, he2, hm2⟩

/-- The search loop output is a sublist of the rows projected to records,
so it preserves store order. -/
theorem searchLoop_sublist (lq : String) (rows : List (List String)) :
    (searchLoop lq rows).Sublist (rows.map toRecord) := by
  rw [searchLoop_eq_filter_map]
  exact (List.filter_sublist rows).map toRecord

/-- With an empty query the loop keeps every row. -/
theorem searchLoop_empty (rows : List (List String)) :
    searchLoop "" rows = rows.map toRecord := by
  rw [searchLoop_eq_filter_map]
  have h : rows.filter (rowMatches "") = rows :=
    List.filter_eq_self.mpr fun row _ => rowMatches_empty row
  rw [h]

/-! ### Concrete worlds and requests used by witnesses and counterexamples -/

/-- A world whose extraction call fails with message `boom`. -/
def extractFailWorld : World :=
  ⟨fun _ => ExtractResult.err "boom", Except.ok (), Except.ok none, "T"⟩

/-- A world whose extraction call succeeds (with whitespace to trim) and
whose append succeeds. -/
def extractOkWorld : World :=
  ⟨fun _ => ExtractResult.ok " cats, pets ", Except.ok (), Except.ok none, "T"⟩

/-- A small sheet: the header row, one full row, and one ragged row with
no title and no tags cell. -/
def demoSheet : List (List String) :=
  [["timestamp", "url", "title", "tags"],
   ["T1", "http://a.com", "Foo", "cats, pets, animals"],
   ["x", "y"]]

/-- A world whose read returns `demoSheet`. -/
def sheetWorld : World :=
  ⟨fun _ => ExtractResult.err "x", Except.ok (), Except.ok (some demoSheet), "T"⟩

/-! ### Claims -/

/-- C1: when the keyword-extraction call fails, `saveDocument` dispatch
returns a body whose status is `error` carrying the extraction failure
message, the only outbound call is the extraction call, and no append
event occurs. -/
theorem save_extract_fail_no_append (w : World) (u t c m : String)
    (hx : w.extract (openaiPrompt c) = ExtractResult.err m) :
    (handleApi w ⟨HttpMethod.post, some "saveDocument", ReqData.save u t c⟩).1.body =
      some (ApiResult.errorBody ("OpenAI Error: " ++ m)) ∧
    (handleApi w ⟨HttpMethod.post, some "saveDocument", ReqData.save u t c⟩).1.body.map
      ApiResult.status = some "error" ∧
    (handleApi w ⟨HttpMethod.post, some "saveDocument", ReqData.save u t c⟩).2 =
      [Event.extract (openaiPrompt c)] ∧
    ∀ row, Event.append row ∉
      (handleApi w ⟨HttpMethod.post, some "saveDocument", ReqData.save u t c⟩).2 := by
  simp [handleApi, saveDocument, getTagsFromOpenAI, hx, ApiResult.status]

/-- C1 witness: a concrete failing extraction. -/
theorem save_extract_fail_no_append_witness :
    (handleApi extractFailWorld
      ⟨HttpMethod.post, some "saveDocument", ReqData.save "u" "t" "c"⟩).1.body =
      some (ApiResult.errorBody ("OpenAI Error: " ++ "boom")) :=
  (save_extract_fail_no_append extractFailWorld "u" "t" "c" "boom" rfl).1

/-- C4: an OPTIONS request is answered immediately with HTTP 200, the CORS
headers, and an empty body, whatever the action and payload, and no
outbound call is made. -/
theorem options_preflight (w : World) (r : Request) (hm : r.method = HttpMethod.options) :
    handleApi w r = (⟨200, true, none⟩, []) := by
  simp [handleApi, hm]

/-- C4 witness: a concrete OPTIONS request with an arbitrary payload. -/
theorem options_preflight_witness :
    handleApi extractOkWorld ⟨HttpMethod.options, some "saveDocument", ReqData.search "zz"⟩ =
      (⟨200, true, none⟩, []) :=
  options_preflight extractOkWorld _ rfl

/-- C6: an absent or unrecognized action yields HTTP 400 with an
`Invalid action` error body, and no outbound call is made. -/
theorem invalid_action_no_calls (w : World) (r : Request)
    (hm : r.method = HttpMethod.post)
    (ha : r.action ≠ some "saveDocument") (hb : r.action ≠ some "searchDocuments") :
    (handleApi w r).1 = ⟨400, true, some (ApiResult.errorBody "Invalid action")⟩ ∧
    (handleApi w r).1.body.map ApiResult.status = some "error" ∧
    (handleApi w r).2 = [] := by
  simp [handleApi, hm, ha, hb, ApiResult.status]

/-- C6 witness: a concrete unrecognized action. -/
theorem invalid_action_no_calls_witness :
    (handleApi extractOkWorld ⟨HttpMethod.post, some "frobnicate", ReqData.search "q"⟩).1 =
      ⟨400, true, some (ApiResult.errorBody "Invalid action")⟩ ∧
    (handleApi extractOkWorld ⟨HttpMethod.post, some "frobnicate", ReqData.search "q"⟩).2 = [] := by
  have h := invalid_action_no_calls extractOkWorld
    ⟨HttpMethod.post, some "frobnicate", ReqData.search "q"⟩ rfl (by decide) (by decide)
  exact ⟨h.1, h.2.2⟩

/-- C7: when extraction succeeds and the append succeeds, the dispatch of a
`saveDocument` request makes exactly one extraction call followed by exactly
one append, the appended row is `[timestamp, url, title, tags]`, and the
response body is the success body carrying the extracted tags. -/
theorem save_success_trace (w : World) (u t c raw : String)
    (hx : w.extract (openaiPrompt c) = ExtractResult.ok raw)
    (hap : w.appendResult = Except.ok ()) :
    handleApi w ⟨HttpMethod.post, some "saveDocument", ReqData.save u t c⟩ =
      (⟨200, true, some (ApiResult.saveSuccess "Document saved!" (jsTrim raw))⟩,
       [Event.extract (openaiPrompt c), Event.append [w.now, u, t, jsTrim raw]]) ∧
    (ApiResult.saveSuccess "Document saved!" (jsTrim raw)).status = "success" := by
  refine ⟨?_, rfl⟩
  simp [handleApi, saveDocument, getTagsFromOpenAI, hx, hap]

/-- C7 witness: a concrete successful save. -/
theorem save_success_trace_witness :
    handleApi extractOkWorld ⟨HttpMethod.post, some "saveDocument", ReqData.save "u" "ti" "c"⟩ =
      (⟨200, true, some (ApiResult.saveSuccess "Document saved!" (jsTrim " cats, pets "))⟩,
       [Event.extract (openaiPrompt "c"),
        Event.append [extractOkWorld.now, "u", "ti", jsTrim " cats, pets "]]) :=
  (save_success_trace extractOkWorld "u" "ti" "c" " cats, pets " rfl rfl).1

/-- C8: on any `saveDocument` dispatch, every extraction call sends the
prompt embedding exactly the first 2000 characters of the supplied content,
and every appended row consists of the timestamp, url, title and some tag
string — the content itself is not one of the stored columns. -/
theorem save_truncates_content (w : World) (u t c : String) :
    (∀ p, Event.extract p ∈
        (handleApi w ⟨HttpMethod.post, some "saveDocument", ReqData.save u t c⟩).2 →
      p = promptIntro ++ jsSubstring c 2000 ++ "\"") ∧
    (∀ row, Event.append row ∈
        (handleApi w ⟨HttpMethod.post, some "saveDocument", ReqData.save u t c⟩).2 →
      ∃ tg, row = [w.now, u, t, tg]) := by
  cases hx : w.extract (openaiPrompt c) with
  | ok raw =>
    cases hap : w.appendResult with
    | ok uu =>
      constructor
      · intro p hp
        simp [handleApi, saveDocument, getTagsFromOpenAI, hx, hap] at hp
        simp [hp, openaiPrompt]
      · intro row hrow
        simp [handleApi, saveDocument, getTagsFromOpenAI, hx, hap] at hrow
        exact ⟨jsTrim raw, hrow⟩
    | error e =>
      constructor
      · intro p hp
        simp [handleApi, saveDocument, getTagsFromOpenAI, hx, hap] at hp
        simp [hp, openaiPrompt]
      · intro row hrow
        simp [handleApi, saveDocument, getTagsFromOpenAI, hx, hap] at hrow
        exact ⟨jsTrim raw, hrow⟩
  | err m =>
    constructor
    · intro p hp
      simp [handleApi, saveDocument, getTagsFromOpenAI, hx] at hp
      simp [hp, openaiPrompt]
    · intro row hrow
      simp [handleApi, saveDocument, getTagsFromOpenAI, hx] at hrow

/-- C8 witness: the concrete prompt sent for a long content is its first
2000 characters inside the template. -/
theorem save_truncates_content_witness :
    ∀ p, Event.extract p ∈
        (handleApi extractOkWorld
          ⟨HttpMethod.post, some "saveDocument", ReqData.save "u" "t" "hello"⟩).2 →
      p = promptIntro ++ jsSubstring "hello" 2000 ++ "\"" :=
  (save_truncates_content extractOkWorld "u" "t" "hello").1

/-- Dispatch of a `searchDocuments` request when the sheet read succeeds:
the response is the 200 success body holding the first 50 records of the
loop over the rows after the header, and the only outbound call is the read. -/
theorem handleApi_search (w : World) (q : String) (vals : List (List String))
    (hr : w.readResult = Except.ok (some vals)) :
    handleApi w ⟨HttpMethod.post, some "searchDocuments", ReqData.search q⟩ =
      (⟨200, true, some (ApiResult.searchSuccess
        ((searchLoop (jsLower q) (vals.drop 1)).take 50))⟩, [Event.read]) := by
  simp [handleApi, searchDocuments, hr]

/-- C2: a search returns at most 50 records, every returned record's title
or tags contains the query case-insensitively, and the returned records are
drawn from the rows after the header (the header row is never returned). -/
theorem search_results_bounded (w : World) (q : String) (vals : List (List String))
    (hr : w.readResult = Except.ok (some vals)) :
    ∃ results,
      (handleApi w ⟨HttpMethod.post, some "searchDocuments", ReqData.search q⟩).1.body =
        some (ApiResult.searchSuccess results) ∧
      results.length ≤ 50 ∧
      (∀ rec ∈ results,
        (jsIncludes (lowerCell rec.title) (jsLower q) ||
         jsIncludes (lowerCell rec.tags) (jsLower q)) = true) ∧
      results.Sublist ((vals.drop 1).map toRecord) := by
  refine ⟨(searchLoop (jsLower q) (vals.drop 1)).take 50, ?_, ?_, ?_, ?_⟩
  · rw [handleApi_search w q vals hr]
  · rw [List.length_take]
    exact inf_le_left
  · intro rec hrec
    obtain ⟨row, _, he, hmatch⟩ :=
      mem_searchLoop _ _ _ (List.mem_of_mem_take hrec)
    subst he
    simpa [rowMatches, toRecord] using hmatch
  · exact (List.take_sublist _ _).trans (searchLoop_sublist _ _)

/-- C2 witness: the query `cats` over the demo sheet. -/
theorem search_results_bounded_witness :
    ∃ results,
      (handleApi sheetWorld
        ⟨HttpMethod.post, some "searchDocuments", ReqData.search "cats"⟩).1.body =
        some (ApiResult.searchSuccess results) ∧
      results.length ≤ 50 ∧
      (∀ rec ∈ results,
        (jsIncludes (lowerCell rec.title) (jsLower "cats") ||
         jsIncludes (lowerCell rec.tags) (jsLower "cats")) = true) ∧
      results.Sublist ((demoSheet.drop 1).map toRecord) :=
  search_results_bounded sheetWorld "cats" demoSheet rfl

/-- C5 counterexample: on the demo sheet, the empty query also returns the
record of the ragged row whose title cell and tags cell are both missing,
so it is not true that exactly the rows with non-empty title or tags match. -/
theorem empty_query_counterexample :
    (handleApi sheetWorld
      ⟨HttpMethod.post, some "searchDocuments", ReqData.search ""⟩).1.body =
      some (ApiResult.searchSuccess
        [toRecord ["T1", "http://a.com", "Foo", "cats, pets, animals"],
         toRecord ["x", "y"]]) ∧
    (["x", "y"] : List String)[2]? = none ∧
    (["x", "y"] : List String)[3]? = none := by
  decide

/-- C5 amended: the empty query matches every row after the header — the
empty string is a substring of anything, including the empty title and tags
a ragged or blank row presents — subject to the 50-row cap. -/
theorem search_empty_query_matches_all (w : World) (vals : List (List String))
    (hr : w.readResult = Except.ok (some vals)) :
    (handleApi w ⟨HttpMethod.post, some "searchDocuments", ReqData.search ""⟩).1.body =
      some (ApiResult.searchSuccess (((vals.drop 1).map toRecord).take 50)) := by
  rw [handleApi_search w "" vals hr]
  have hq : jsLower "" = "" := rfl
  rw [hq, searchLoop_empty]

/-- C5 amended witness: the empty query over the demo sheet returns every
non-header row. -/
theorem search_empty_query_matches_all_witness :
    (handleApi sheetWorld
      ⟨HttpMethod.post, some "searchDocuments", ReqData.search ""⟩).1.body =
      some (ApiResult.searchSuccess (((demoSheet.drop 1).map toRecord).take 50)) :=
  search_empty_query_matches_all sheetWorld demoSheet rfl

/-- C9: search results appear in store order — they form a sublist of the
rows after the header projected to records — and each returned record's
fields are exactly the url, title and tags cells of its row. -/
theorem search_store_order (w : World) (q : String) (vals : List (List String))
    (hr : w.readResult = Except.ok (some vals)) :
    ∃ results,
      (handleApi w ⟨HttpMethod.post, some "searchDocuments", ReqData.search q⟩).1.body =
        some (ApiResult.searchSuccess results) ∧
      results.Sublist ((vals.drop 1).map toRecord) ∧
      ∀ rec ∈ results, ∃ row ∈ vals.drop 1,
        rec.url = row[1]? ∧ rec.title = row[2]? ∧ rec.tags = row[3]? := by
  refine ⟨(searchLoop (jsLower q) (vals.drop 1)).take 50, ?_, ?_, ?_⟩
  · rw [handleApi_search w q vals hr]
  · exact (List.take_sublist _ _).trans (searchLoop_sublist _ _)
  · intro rec hrec
    obtain ⟨row, hrow, he, _⟩ :=
      mem_searchLoop _ _ _ (List.mem_of_mem_take hrec)
    exact ⟨row, hrow, by simp [he, toRecord]⟩

/-- C9 witness: store order and field projection over the demo sheet. -/
theorem search_store_order_witness :
    ∃ results,
      (handleApi sheetWorld
        ⟨HttpMethod.post, some "searchDocuments", ReqData.search "foo"⟩).1.body =
        some (ApiResult.searchSuccess results) ∧
      results.Sublist ((demoSheet.drop 1).map toRecord) ∧
      ∀ rec ∈ results, ∃ row ∈ demoSheet.drop 1,
        rec.url = row[1]? ∧ rec.title = row[2]? ∧ rec.tags = row[3]? :=
  search_store_order sheetWorld "foo" demoSheet rfl

/-- C10: over a ragged store the search is total: a missing title or tags
cell is read as the empty string for matching (`lowerCell none` is empty),
the response is still the 200 success body, and every returned record comes
from a matching row with its missing fields `none` in the record. -/
theorem search_ragged_total (w : World) (q : String) (vals : List (List String))
    (hr : w.readResult = Except.ok (some vals)) :
    (handleApi w ⟨HttpMethod.post, some "searchDocuments", ReqData.search q⟩).1.httpStatus
      = 200 ∧
    lowerCell none = "" ∧
    ∃ results,
      (handleApi w ⟨HttpMethod.post, some "searchDocuments", ReqData.search q⟩).1.body =
        some (ApiResult.searchSuccess results) ∧
      ∀ rec ∈ results, ∃ row ∈ vals.drop 1,
        rec = toRecord row ∧
        (jsIncludes (lowerCell row[2]?) (jsLower q) ||
         jsIncludes (lowerCell row[3]?) (jsLower q)) = true ∧
        (row[2]? = none → rec.title = none) ∧
        (row[3]? = none → rec.tags = none) := by
  refine ⟨by rw [handleApi_search w q vals hr], rfl,
    (searchLoop (jsLower q) (vals.drop 1)).take 50, ?_, ?_⟩
  · rw [handleApi_search w q vals hr]
  · intro rec hrec
    obtain ⟨row, hrow, he, hmatch⟩ :=
      mem_searchLoop _ _ _ (List.mem_of_mem_take hrec)
    refine ⟨row, hrow, he, by simpa [rowMatches] using hmatch, ?_, ?_⟩
    · intro h2
      simp [he, toRecord, h2]
    · intro h3
      simp [he, toRecord, h3]

/-- C10 witness: a ragged row with a matching title and no tags cell is
returned with `tags` absent, and the request still succeeds. -/
theorem search_ragged_total_witness :
    (handleApi sheetWorld
      ⟨HttpMethod.post, some "searchDocuments", ReqData.search "foo"⟩).1.httpStatus = 200 ∧
    lowerCell none = "" ∧
    ∃ results,
      (handleApi sheetWorld
        ⟨HttpMethod.post, some "searchDocuments", ReqData.search "foo"⟩).1.body =
        some (ApiResult.searchSuccess results) ∧
      ∀ rec ∈ results, ∃ row ∈ demoSheet.drop 1,
        rec = toRecord row ∧
        (jsIncludes (lowerCell row[2]?) (jsLower "foo") ||
         jsIncludes (lowerCell row[3]?) (jsLower "foo")) = true ∧
        (row[2]? = none → rec.title = none) ∧
        (row[3]? = none → rec.tags = none) :=
  search_ragged_total sheetWorld "foo" demoSheet rfl

/-- C3 counterexample: when extraction fails, the failure body
(`status: error`) is returned with HTTP 200, not 500, refuting the claim
that every failure other than an invalid action gets HTTP 500. -/
theorem extraction_failure_status_counterexample :
    ((handleApi extractFailWorld
        ⟨HttpMethod.post, some "saveDocument", ReqData.save "u" "t" "c"⟩).1.body.map
      ApiResult.status = some "error") ∧
    (handleApi extractFailWorld
      ⟨HttpMethod.post, some "saveDocument", ReqData.save "u" "t" "c"⟩).1.httpStatus = 200 ∧
    ¬ (handleApi extractFailWorld
        ⟨HttpMethod.post, some "saveDocument", ReqData.save "u" "t" "c"⟩).1.httpStatus = 500 := by
  decide

/-- C3 amended: every failure body is an error object with a message;
an invalid action yields HTTP 400; a thrown storage failure (append or
read) yields HTTP 500 with the underlying message; but an extraction
failure yields HTTP 200 with the error body. -/
theorem failure_response_codes (w : World) (r : Request)
    (u t c q e m raw : String) (hm : r.method = HttpMethod.post) :
    (∀ b, (handleApi w r).1.body = some b → ApiResult.status b = "error" →
        ∃ msg, b = ApiResult.errorBody msg) ∧
    ((r.action ≠ some "saveDocument" ∧ r.action ≠ some "searchDocuments") →
        (handleApi w r).1.httpStatus = 400) ∧
    (r.action = some "saveDocument" → r.data = ReqData.save u t c →
      w.extract (openaiPrompt c) = ExtractResult.err m →
        (handleApi w r).1.httpStatus = 200 ∧
        (handleApi w r).1.body = some (ApiResult.errorBody ("OpenAI Error: " ++ m))) ∧
    (r.action = some "saveDocument" → r.data = ReqData.save u t c →
      w.extract (openaiPrompt c) = ExtractResult.ok raw → w.appendResult = Except.error e →
        (handleApi w r).1.httpStatus = 500 ∧
        (handleApi w r).1.body = some (ApiResult.errorBody e)) ∧
    (r.action = some "searchDocuments" → r.data = ReqData.search q →
      w.readResult = Except.error e →
        (handleApi w r).1.httpStatus = 500 ∧
        (handleApi w r).1.body = some (ApiResult.errorBody e)) := by
  obtain ⟨mth, act, d⟩ := r
  simp only at hm
  subst hm
  refine ⟨?_, ?_, ?_, ?_, ?_⟩
  · intro b _ hst
    cases b with
    | errorBody msg => exact ⟨msg, rfl⟩
    | saveSuccess msg tg =>
      have hs : ApiResult.status (ApiResult.saveSuccess msg tg) = "success" := rfl
      rw [hs] at hst
      exact absurd hst (by decide)
    | searchSuccess rs =>
      have hs : ApiResult.status (ApiResult.searchSuccess rs) = "success" := rfl
      rw [hs] at hst
      exact absurd hst (by decide)
  · intro ⟨h1, h2⟩
    simp [handleApi, h1, h2]
  · intro ha hd hx
    simp only at ha hd
    subst ha hd
    simp [handleApi, saveDocument, getTagsFromOpenAI, hx]
  · intro ha hd hx hap
    simp only at ha hd
    subst ha hd
    simp [handleApi, saveDocument, getTagsFromOpenAI, hx, hap]
  · intro ha hd hre
    simp only at ha hd
    subst ha hd
    simp [handleApi, searchDocuments, hre]

/-- C3 amended witness: a concrete invalid action gets HTTP 400. -/
theorem failure_response_codes_witness :
    (handleApi extractOkWorld
      ⟨HttpMethod.post, some "bogus", ReqData.search "q"⟩).1.httpStatus = 400 :=
  (failure_response_codes extractOkWorld
    ⟨HttpMethod.post, some "bogus", ReqData.search "q"⟩
    "u" "t" "c" "q" "e" "m" "raw" rfl).2.1 ⟨by decide, by decide⟩

end DocFinder
